import Mathlib

/-!
Verification of the voice-prompt orchestration layer.

This file shallowly embeds the event-driven orchestration core of the
program: the central state machine (src/app/event_handler.rs), the
recording lifecycle (src/app/recording.rs), the pipeline dispatcher
(src/app/pipeline.rs), the model lifecycle (src/app/model.rs), the
statistics record (src/stats.rs), the refiner (src/refiner.rs) and the
hotkey listener debounce logic (src/hotkey/linux.rs).

Modelling conventions:
- f32 sample and level values are represented by rationals; no claim
  depends on floating-point arithmetic, only on structural properties.
- Handles held in Option fields of the Rust AppState (cpal stream,
  glib timer sources) are represented by Booleans recording presence.
- External calls whose outcome the handlers branch on (opening the
  capture device, copying to the clipboard, wall-clock readings) are
  supplied through an Env record; externally visible actions are
  recorded in a list of Effect values returned next to the new state.
- Background tasks spawned on the tokio runtime are modelled by pure
  functions from the task outcome (normal result or abnormal
  termination) to the events the task body sends back on the channel.
-/

namespace VoicePrompt

/-- Stand-in for Rust f32 values; claims use them only structurally. -/
abbrev F32 := ℚ

/-- Application status, from src/app/state.rs. -/
inductive AppStatus where
  | Idle
  | Recording
  | Processing
  | ModelDownloading
deriving DecidableEq, Repr

/-- Overlay pipeline phase, from src/app/state.rs. -/
inductive OverlayPhase where
  | Recording
  | Transcribing
  | Refining
  | Done (text : String)
deriving DecidableEq, Repr

/-- Events sent from background threads to the main thread, from
src/app/state.rs. -/
inductive BackendEvent where
  | HotkeyTriggered
  | TranscriptionComplete (text : String)
  | RefinementComplete (text : String)
  | ProcessingError (message : String)
  | ModelDownloadProgress (downloaded total : Nat)
  | ModelDownloadComplete
  | TimerTick
  | AudioLevel (level : F32)
  | OverlayClicked
deriving DecidableEq, Repr

/-- Beep kinds, from src/audio_feedback.rs. -/
inductive BeepType where
  | start
  | stop
deriving DecidableEq, Repr

/-- Externally visible actions issued by the orchestrator while
handling an event. -/
inductive Effect where
  | cancelDismissTimer
  | cancelTick
  | playBeep (kind : BeepType)
  | startCapture
  | armTick (ms : Nat)
  | spawnTranscription (samples : List F32)
  | spawnRefinement (apiKey transcript : String)
  | spawnModelLoad
  | copyToClipboard (text : String)
  | armDismissTimer (ms : Nat)
  | saveStats
  | statusText (message : String)
  | hideProgress
  | showProgress
  | queueDraw
deriving DecidableEq, Repr

/-- Rust char::is_whitespace: the Unicode White_Space property, as
used by str::split_whitespace in src/stats.rs. -/
def isRustWhitespace (c : Char) : Bool :=
  let n := c.toNat
  n = 0x9 || n = 0xA || n = 0xB || n = 0xC || n = 0xD || n = 0x20 ||
  n = 0x85 || n = 0xA0 || n = 0x1680 || (0x2000 ≤ n && n ≤ 0x200A) ||
  n = 0x2028 || n = 0x2029 || n = 0x202F || n = 0x205F || n = 0x3000

/-- Counts the maximal runs of non-whitespace characters: the items
yielded by str::split_whitespace are exactly these runs. The Boolean
argument records whether the previous character was inside a word. -/
def countWordsAux : List Char → Bool → Nat
  | [], _ => 0
  | c :: rest, inWord =>
      if isRustWhitespace c then countWordsAux rest false
      else (if inWord then 0 else 1) + countWordsAux rest true

/-- Number of whitespace-separated words,
text.split_whitespace().count() in src/stats.rs. -/
def countWords (text : String) : Nat :=
  countWordsAux text.toList false

/-- A single recorded prompt with metadata, from src/stats.rs. -/
structure PromptRecord where
  text : String
  word_count : Nat
  timestamp : String
deriving DecidableEq, Repr

/-- Persistent usage statistics, from src/stats.rs. -/
structure Stats where
  total_words : Nat
  total_prompts : Nat
  history : List PromptRecord
deriving DecidableEq, Repr

/-- Stats::record_prompt from src/stats.rs; the timestamp string
(Local::now formatted) is passed in from the environment. -/
def Stats.record_prompt (s : Stats) (text timestamp : String) : Stats :=
  let word_count := countWords text
  { total_prompts := s.total_prompts + 1
    total_words := s.total_words + word_count
    history := s.history ++ [{ text := text, word_count := word_count,
                               timestamp := timestamp }] }

/-- Opaque handle to a loaded whisper model (whisper_rs::WhisperContext);
its contents are never inspected by the orchestrator. -/
abbrev WhisperContext := Unit

/-- Central application state, from src/app/state.rs. Option-typed
handles (cpal_stream, timer_source, overlay_dismiss_source) are
modelled by their presence; the overlay widgets are modelled by a
presence flag plus the window visibility and the audio_levels ring
buffer they hold; the dashboard widgets by a presence flag. -/
structure AppState where
  status : AppStatus
  gemini_api_key : String
  stats : Stats
  audio_buffer : List F32
  whisper_ctx : Option WhisperContext
  cpal_stream : Bool
  recording_start : Option Nat
  timer_source : Bool
  sample_rate : Nat
  overlay_phase : Option OverlayPhase
  overlay_dismiss_source : Bool
  overlay_present : Bool
  overlay_visible : Bool
  audio_levels : List F32
  dashboard_present : Bool
deriving DecidableEq, Repr

/-- Outcomes of the external calls an event handler makes
synchronously, supplied by the environment. -/
structure Env where
  captureResult : Except String Nat
  copyResult : String → Except String Unit
  now : Nat
  timestamp : String

/-- Outcome of a spawned task awaited through the runtime: a normal
Ok result, a normal Err result, or abnormal termination of the task
(the Err case of the join, such as a panic). -/
inductive TaskOutcome (α : Type) where
  | ok (a : α)
  | err (e : String)
  | panicked (e : String)

/-- update_status from src/app/state.rs: sets the status field and
asks the dashboard status label to show the message. -/
def update_status (s : AppState) (status : AppStatus) (label_text : String) :
    AppState × List Effect :=
  ({ s with status := status }, [.statusText label_text])

/-- dismiss_overlay from src/app/event_handler.rs: clear the phase,
cancel the dismiss timer if armed, hide the overlay window. -/
def dismiss_overlay (s : AppState) : AppState × List Effect :=
  let fx := if s.overlay_dismiss_source then [Effect.cancelDismissTimer] else []
  ({ s with overlay_phase := none
            overlay_dismiss_source := false
            overlay_visible := if s.overlay_present then false else s.overlay_visible },
   fx)

/-- start_recording from src/app/recording.rs: cancel any pending
dismiss timer, clear the audio buffer, play the start cue, open the
capture device; on success set the recording fields, status and
overlay phase and arm the 80 ms tick; on failure report the error and
stay Idle. -/
def start_recording (env : Env) (s : AppState) : AppState × List Effect :=
  let cancelFx := if s.overlay_dismiss_source then [Effect.cancelDismissTimer] else []
  let s := { s with overlay_dismiss_source := false }
  let s := { s with audio_buffer := [] }
  let fx := cancelFx ++ [Effect.playBeep .start, Effect.startCapture]
  match env.captureResult with
  | .ok sample_rate =>
      let s := { s with cpal_stream := true
                        sample_rate := sample_rate
                        recording_start := some env.now
                        status := .Recording
                        overlay_phase := some .Recording
                        overlay_visible := if s.overlay_present then true else s.overlay_visible }
      let dashFx := if s.dashboard_present then [Effect.statusText "Recording..."]
        else []
      let s := { s with timer_source := true }
      (s, fx ++ dashFx ++ [Effect.armTick 80])
  | .error e =>
      let (s, fx2) := update_status s .Idle ("Mic error: " ++ e)
      (s, fx ++ fx2)

/-- dispatch_transcription from src/app/pipeline.rs: requires a loaded
whisper context; if absent report and return to Idle, otherwise spawn
the blocking transcription task. -/
def dispatch_transcription (s : AppState) (samples : List F32) :
    AppState × List Effect :=
  match s.whisper_ctx with
  | none => update_status s .Idle "Whisper model not loaded"
  | some _ => (s, [Effect.spawnTranscription samples])

/-- The event sent back by the transcription task spawned in
dispatch_transcription (src/app/pipeline.rs), by outcome of the
spawn_blocking join. -/
def transcriptionTaskEvent : TaskOutcome String → BackendEvent
  | .ok text => .TranscriptionComplete text
  | .err e => .ProcessingError ("Transcription failed: " ++ e)
  | .panicked e => .ProcessingError ("Transcription task panicked: " ++ e)

/-- dispatch_refinement from src/app/pipeline.rs: spawns the
refinement task with the configured api key; no branching. -/
def dispatch_refinement (s : AppState) (transcript : String) :
    AppState × List Effect :=
  (s, [Effect.spawnRefinement s.gemini_api_key transcript])

/-- The event sent back by the refinement task spawned in
dispatch_refinement (src/app/pipeline.rs): RefinementComplete with the
refined text on Ok, RefinementComplete with the original transcript on
Err. -/
def refinementTaskEvent (result : Except String String) (transcript : String) :
    BackendEvent :=
  match result with
  | .ok refined => .RefinementComplete refined
  | .error _ => .RefinementComplete transcript

/-- Outcome of the network exchange inside refiner::refine, as seen at
the branch points of src/refiner.rs: the send/json calls can fail, the
response status can be non-success, or the parsed response carries the
parts of the first candidate (none when no candidate is present). -/
inductive HttpOutcome where
  | sendErr (e : String)
  | badStatus (status body : String)
  | jsonErr (e : String)
  | ok (candidateParts : Option (List String))

/-- refiner::refine from src/refiner.rs: with an empty api key returns
the transcript as-is; otherwise the result follows the network
outcome, falling back to the transcript when no candidate is present,
and trimming the delivered text. -/
def refine (api_key transcript : String) (http : HttpOutcome) :
    Except String String :=
  if api_key = "" then .ok transcript
  else
    match http with
    | .sendErr e => .error e
    | .badStatus status body =>
        .error ("Gemini API error " ++ status ++ ": " ++ body)
    | .jsonErr e => .error e
    | .ok candidateParts =>
        let text :=
          match candidateParts with
          | some parts => String.join parts
          | none => transcript
        .ok text.trim

/-- on_prompt_ready from src/app/event_handler.rs: copy to clipboard;
on failure dismiss the overlay and report, on success record stats,
save them, set the Done phase, go Idle and arm the 3 s auto-dismiss. -/
def on_prompt_ready (env : Env) (s : AppState) (text : String) :
    AppState × List Effect :=
  match env.copyResult text with
  | .error e =>
      let (s, fx1) := dismiss_overlay s
      let (s, fx2) := update_status s .Idle ("Clipboard error: " ++ e)
      (s, [Effect.copyToClipboard text] ++ fx1 ++ fx2)
  | .ok _ =>
      let s := { s with stats := s.stats.record_prompt text env.timestamp }
      let s := { s with overlay_phase := some (.Done text) }
      let (s, fx) := update_status s .Idle "Idle — Prompt copied!"
      let s := { s with overlay_dismiss_source := true }
      (s, [Effect.copyToClipboard text, Effect.saveStats] ++ fx ++
          [Effect.armDismissTimer 3000])

/-- load_whisper_model from src/app/model.rs, synchronous part: set
status to Processing with the loading message and spawn the blocking
model-load task. -/
def load_whisper_model (s : AppState) : AppState × List Effect :=
  let (s, fx) := update_status s .Processing "Loading model..."
  (s, fx ++ [Effect.spawnModelLoad])

/-- Body of the model-load task spawned in load_whisper_model
(src/app/model.rs): on Ok(Ok ctx) the context is sent over the
dedicated channel and no backend event is emitted; a load error or an
abnormal task termination emits ProcessingError. -/
def modelLoadTaskResult : TaskOutcome WhisperContext →
    Option WhisperContext × List BackendEvent
  | .ok ctx => (some ctx, [])
  | .err e => (none, [.ProcessingError ("Failed to load model: " ++ e)])
  | .panicked e => (none, [.ProcessingError ("Model load panicked: " ++ e)])

/-- The local future in load_whisper_model (src/app/model.rs) that
receives the loaded context on the main thread: stores it and flips
status to Idle. -/
def on_whisper_ctx_received (s : AppState) (ctx : WhisperContext) : AppState :=
  { s with whisper_ctx := some ctx, status := .Idle }

/-- The bounded level history update in the AudioLevel arm of
handle_backend_event (src/app/event_handler.rs): pop the front when 24
entries are retained, then push the new level at the back. -/
def pushLevel (levels : List F32) (level : F32) : List F32 :=
  (if levels.length ≥ 24 then levels.drop 1 else levels) ++ [level]

/-- stop_recording from src/app/recording.rs: cancel the tick, drop
the capture stream, play the stop cue, set the Transcribing phase and
Processing status, snapshot the buffer; an empty snapshot returns
directly to Idle with the overlay cleared and a no-audio message,
otherwise the snapshot goes to dispatch_transcription. -/
def stop_recording (s : AppState) : AppState × List Effect :=
  let cancelFx := if s.timer_source then [Effect.cancelTick] else []
  let s := { s with timer_source := false }
  let s := { s with cpal_stream := false }
  let fx := cancelFx ++ [Effect.playBeep .stop]
  let s := { s with overlay_phase := some .Transcribing }
  let (s, fx2) := update_status s .Processing "Transcribing..."
  let samples := s.audio_buffer
  if samples.isEmpty then
    let s := { s with overlay_phase := none
                      overlay_visible := if s.overlay_present then false else s.overlay_visible }
    let (s, fx3) := update_status s .Idle "No audio captured"
    (s, fx ++ fx2 ++ fx3)
  else
    let (s, fx4) := dispatch_transcription s samples
    (s, fx ++ fx2 ++ fx4)

/-- handle_backend_event from src/app/event_handler.rs: the core state
machine. -/
def handle_backend_event (env : Env) (s : AppState) (event : BackendEvent) :
    AppState × List Effect :=
  match event with
  | .HotkeyTriggered =>
      match s.status with
      | .Idle => start_recording env s
      | .Recording => stop_recording s
      | _ => (s, [])
  | .TranscriptionComplete transcript =>
      let s := { s with overlay_phase := some .Refining }
      let (s, fx) := update_status s .Processing "Refining with Gemini..."
      let (s, fx2) := dispatch_refinement s transcript
      (s, fx ++ fx2)
  | .RefinementComplete refined => on_prompt_ready env s refined
  | .ProcessingError e =>
      let (s, fx1) := dismiss_overlay s
      let (s, fx2) := update_status s .Idle ("Error: " ++ e)
      (s, fx1 ++ fx2)
  | .ModelDownloadProgress _ _ =>
      (s, if s.dashboard_present then [Effect.showProgress] else [])
  | .ModelDownloadComplete =>
      let fx := if s.dashboard_present then [Effect.hideProgress] else []
      let (s, fx2) := load_whisper_model s
      (s, fx ++ fx2)
  | .TimerTick => (s, [])
  | .AudioLevel level =>
      if s.overlay_present then
        ({ s with audio_levels := pushLevel s.audio_levels level },
         [Effect.queueDraw])
      else (s, [])
  | .OverlayClicked =>
      let copyFx :=
        match s.overlay_phase with
        | some (.Done text) => [Effect.copyToClipboard text]
        | _ => []
      let (s, fx) := dismiss_overlay s
      (s, copyFx ++ fx)

/-- Hotkey configuration, from src/config.rs. -/
structure HotkeyConfig where
  modifiers : List Nat
  trigger : Nat
  display_name : String
deriving DecidableEq, Repr

/-- The match condition of listener_loop in src/hotkey/linux.rs: all
configured modifier codes held and the trigger code held. -/
def hotkeyMatches (cfg : HotkeyConfig) (held : Finset ℕ) : Bool :=
  cfg.modifiers.all (fun m => decide (m ∈ held)) && decide (cfg.trigger ∈ held)

/-- One key event applied to the held-key set in listener_loop
(src/hotkey/linux.rs): value 1 inserts, value 0 removes, repeats are
ignored. -/
def applyKeyEvent (held : Finset ℕ) (code value : Nat) : Finset ℕ :=
  match value with
  | 1 => insert code held
  | 0 => held.erase code
  | _ => held

/-- One debounced match check of listener_loop (src/hotkey/linux.rs):
fires exactly when the combination matches and strictly more than
500 ms (the debounce) elapsed since the last trigger; firing updates
the last-trigger timestamp. Times are in milliseconds. -/
def checkTrigger (cfg : HotkeyConfig) (held : Finset ℕ) (now last : ℤ) :
    Bool × ℤ :=
  if hotkeyMatches cfg held && decide (now - last > 500) then (true, now)
  else (false, last)

/-- Number of trigger signals sent over a sequence of match checks,
each given by the held-key set and the time at which listener_loop
evaluates the condition. -/
def countTriggers (cfg : HotkeyConfig) (checks : List (Finset ℕ × ℤ))
    (last : ℤ) : Nat :=
  match checks with
  | [] => 0
  | (held, now) :: rest =>
      let (fired, last2) := checkTrigger cfg held now last
      (if fired then 1 else 0) + countTriggers cfg rest last2

/-- The initial session state built by AppState::new in
src/app/state.rs (with both UI surfaces built, as in main.rs). -/
def AppState.new : AppState :=
  { status := .Idle
    gemini_api_key := ""
    stats := { total_words := 0, total_prompts := 0, history := [] }
    audio_buffer := []
    whisper_ctx := none
    cpal_stream := false
    recording_start := none
    timer_source := false
    sample_rate := 16000
    overlay_phase := none
    overlay_dismiss_source := false
    overlay_present := true
    overlay_visible := false
    audio_levels := []
    dashboard_present := true }

/-- An environment in which every external call succeeds. -/
def envOk : Env :=
  { captureResult := .ok 16000
    copyResult := fun _ => .ok ()
    now := 0
    timestamp := "2026-01-01 00:00:00" }

/-- C4: dispatch_refinement always spawns exactly one refinement task
(submitting the configured credential and the transcript, leaving the
state untouched), and that task emits exactly one RefinementComplete
event: with the refined text when the refinement call succeeds, with
the original transcript unchanged when the call fails; a missing
credential makes refine return the transcript unchanged; no
ProcessingError is ever produced. -/
theorem C4_refinement_degrades_gracefully
    (s : AppState) (t : String) (res : Except String String)
    (http : HttpOutcome) :
    dispatch_refinement s t = (s, [Effect.spawnRefinement s.gemini_api_key t])
    ∧ (∃ x, refinementTaskEvent res t = .RefinementComplete x)
    ∧ (∀ refined, res = .ok refined →
        refinementTaskEvent res t = .RefinementComplete refined)
    ∧ (∀ e, res = .error e →
        refinementTaskEvent res t = .RefinementComplete t)
    ∧ refine "" t http = .ok t
    ∧ (∀ m, refinementTaskEvent res t ≠ .ProcessingError m) := by
  refine ⟨rfl, ?_, ?_, ?_, ?_, ?_⟩
  · cases res <;> exact ⟨_, rfl⟩
  · intro refined h; subst h; rfl
  · intro e h; subst h; rfl
  · rfl
  · intro m; cases res <;> simp [refinementTaskEvent]

/-- C4 witness: at a concrete transcript, a successful call delivers
the refined text, a failed call delivers the transcript unchanged, and
an empty credential round-trips the transcript. -/
theorem C4_refinement_degrades_gracefully_witness :
    refinementTaskEvent (.ok "Fix the bug") "fix bug um" =
      .RefinementComplete "Fix the bug"
    ∧ refinementTaskEvent (.error "timeout") "fix bug um" =
      .RefinementComplete "fix bug um"
    ∧ refine "" "fix bug um" (.sendErr "offline") = .ok "fix bug um" := by
  refine ⟨?_, ?_, ?_⟩
  · exact (C4_refinement_degrades_gracefully AppState.new "fix bug um"
      (.ok "Fix the bug") (.sendErr "offline")).2.2.1 "Fix the bug" rfl
  · exact (C4_refinement_degrades_gracefully AppState.new "fix bug um"
      (.error "timeout") (.sendErr "offline")).2.2.2.1 "timeout" rfl
  · exact (C4_refinement_degrades_gracefully AppState.new "fix bug um"
      (.ok "Fix the bug") (.sendErr "offline")).2.2.2.2.1

/-- C5: stopping a recording whose snapshot is empty returns directly
to Idle with the overlay cleared and the no-audio status message, and
submits no transcription work. -/
theorem C5_empty_capture_skips_dispatch
    (s : AppState) (_hst : s.status = .Recording)
    (hbuf : s.audio_buffer = []) :
    (stop_recording s).1.status = .Idle
    ∧ (stop_recording s).1.overlay_phase = none
    ∧ Effect.statusText "No audio captured" ∈ (stop_recording s).2
    ∧ (∀ samples, Effect.spawnTranscription samples ∉ (stop_recording s).2) := by
  cases htimer : s.timer_source <;>
    simp [stop_recording, update_status, hbuf, htimer]

/-- A concrete state in the middle of a recording with nothing
captured yet: status Recording, live stream and timer, empty buffer. -/
def emptyRecordingState : AppState :=
  { AppState.new with
      status := .Recording
      timer_source := true
      cpal_stream := true
      overlay_phase := some .Recording
      overlay_visible := true }

/-- C5 witness: from a concrete recording state with an empty buffer,
stopping goes to Idle without dispatch. -/
theorem C5_empty_capture_skips_dispatch_witness :
    emptyRecordingState.status = .Recording
    ∧ emptyRecordingState.audio_buffer = []
    ∧ (stop_recording emptyRecordingState).1.status = .Idle := by
  exact ⟨rfl, rfl,
    (C5_empty_capture_skips_dispatch emptyRecordingState rfl rfl).1⟩

/-- C7: when the clipboard copy fails while handling
RefinementComplete, the cycle is terminal: the overlay is dismissed
(phase cleared, dismiss timer disarmed, window hidden), the error text
is surfaced, status becomes Idle, the stats are untouched, no
auto-dismiss timer is armed, no stats save happens and exactly one
copy attempt is made (no retry). -/
theorem C7_clipboard_failure_terminal
    (env : Env) (s : AppState) (t e : String)
    (hcopy : env.copyResult t = .error e) :
    (handle_backend_event env s (.RefinementComplete t)).1.status = .Idle
    ∧ (handle_backend_event env s (.RefinementComplete t)).1.overlay_phase = none
    ∧ (handle_backend_event env s (.RefinementComplete t)).1.overlay_dismiss_source
        = false
    ∧ (handle_backend_event env s (.RefinementComplete t)).1.stats = s.stats
    ∧ Effect.statusText ("Clipboard error: " ++ e)
        ∈ (handle_backend_event env s (.RefinementComplete t)).2
    ∧ (∀ ms, Effect.armDismissTimer ms
        ∉ (handle_backend_event env s (.RefinementComplete t)).2)
    ∧ Effect.saveStats ∉ (handle_backend_event env s (.RefinementComplete t)).2
    ∧ ((handle_backend_event env s (.RefinementComplete t)).2.filter
        (fun f => match f with | .copyToClipboard _ => true | _ => false))
        = [Effect.copyToClipboard t]
    ∧ (s.overlay_present = true →
        (handle_backend_event env s (.RefinementComplete t)).1.overlay_visible
          = false) := by
  cases hdismiss : s.overlay_dismiss_source <;>
    cases hover : s.overlay_present <;>
      simp [handle_backend_event, on_prompt_ready, dismiss_overlay,
        update_status, hcopy, hdismiss, hover, List.filter]

/-- An environment whose clipboard always fails. -/
def envCopyFail : Env :=
  { envOk with copyResult := fun _ => .error "no display" }

/-- C7 witness: the clipboard-failure path at a concrete state. -/
theorem C7_clipboard_failure_terminal_witness :
    envCopyFail.copyResult "fix the bug" = .error "no display"
    ∧ (handle_backend_event envCopyFail AppState.new
        (.RefinementComplete "fix the bug")).1.status = .Idle := by
  exact ⟨rfl,
    (C7_clipboard_failure_terminal envCopyFail AppState.new
      "fix the bug" "no display" rfl).1⟩

/-- C8: on RefinementComplete with a successful clipboard copy, the
clipboard receives exactly the delivered text, total_prompts
increments by one, total_words by the whitespace-separated word count,
a history entry with that word count is appended, the overlay phase
becomes Done with the text, status becomes Idle, and a 3000 ms
auto-dismiss timer is armed. -/
theorem C8_prompt_ready_success
    (env : Env) (s : AppState) (t : String)
    (hcopy : env.copyResult t = .ok ()) :
    Effect.copyToClipboard t ∈ (handle_backend_event env s (.RefinementComplete t)).2
    ∧ (handle_backend_event env s (.RefinementComplete t)).1.stats.total_prompts
        = s.stats.total_prompts + 1
    ∧ (handle_backend_event env s (.RefinementComplete t)).1.stats.total_words
        = s.stats.total_words + countWords t
    ∧ (handle_backend_event env s (.RefinementComplete t)).1.stats.history
        = s.stats.history
          ++ [{ text := t, word_count := countWords t,
                timestamp := env.timestamp }]
    ∧ (handle_backend_event env s (.RefinementComplete t)).1.overlay_phase
        = some (.Done t)
    ∧ (handle_backend_event env s (.RefinementComplete t)).1.status = .Idle
    ∧ (handle_backend_event env s (.RefinementComplete t)).1.overlay_dismiss_source
        = true
    ∧ Effect.armDismissTimer 3000
        ∈ (handle_backend_event env s (.RefinementComplete t)).2 := by
  simp [handle_backend_event, on_prompt_ready, update_status,
    Stats.record_prompt, hcopy]

/-- C8 witness: at the concrete transcript of the spec scenario, the
word count is 3 and the Done transition fires. -/
theorem C8_prompt_ready_success_witness :
    countWords "fix the bug" = 3
    ∧ (handle_backend_event envOk AppState.new
        (.RefinementComplete "fix the bug")).1.stats.total_words = 0 + 3
    ∧ (handle_backend_event envOk AppState.new
        (.RefinementComplete "fix the bug")).1.overlay_phase
        = some (.Done "fix the bug") := by
  refine ⟨by decide, ?_, ?_⟩
  · have h := (C8_prompt_ready_success envOk AppState.new "fix the bug"
      rfl).2.2.1
    have hw : countWords "fix the bug" = 3 := by decide
    rw [hw] at h
    simpa [AppState.new] using h
  · exact (C8_prompt_ready_success envOk AppState.new "fix the bug"
      rfl).2.2.2.2.1

/-- C10: when start_recording fails to open the input device, the
audio buffer has already been cleared and any pending dismiss timer
already cancelled, status stays Idle with the mic error surfaced, but
the overlay phase and window visibility are left unchanged and no
dismiss timer is armed, so a showing Done overlay stays set with no
timer to dismiss it. -/
theorem C10_failed_start_leaves_overlay
    (env : Env) (s : AppState) (e : String)
    (hcap : env.captureResult = .error e) (hst : s.status = .Idle) :
    (handle_backend_event env s .HotkeyTriggered).1.status = .Idle
    ∧ (handle_backend_event env s .HotkeyTriggered).1.audio_buffer = []
    ∧ (handle_backend_event env s .HotkeyTriggered).1.overlay_dismiss_source
        = false
    ∧ (handle_backend_event env s .HotkeyTriggered).1.overlay_phase
        = s.overlay_phase
    ∧ (handle_backend_event env s .HotkeyTriggered).1.overlay_visible
        = s.overlay_visible
    ∧ Effect.statusText ("Mic error: " ++ e)
        ∈ (handle_backend_event env s .HotkeyTriggered).2
    ∧ (∀ ms, Effect.armDismissTimer ms
        ∉ (handle_backend_event env s .HotkeyTriggered).2)
    ∧ (s.overlay_dismiss_source = true →
        Effect.cancelDismissTimer
          ∈ (handle_backend_event env s .HotkeyTriggered).2) := by
  cases hdismiss : s.overlay_dismiss_source <;>
    simp [handle_backend_event, start_recording, update_status,
      hcap, hst, hdismiss]

/-- A concrete state showing a Done overlay with the dismiss timer
armed, as left behind by a completed cycle. -/
def doneOverlayState : AppState :=
  { AppState.new with
      overlay_phase := some (.Done "fix the bug")
      overlay_dismiss_source := true
      overlay_visible := true }

/-- An environment in which the capture device fails to open. -/
def envMicFail : Env :=
  { envOk with captureResult := .error "device busy" }

/-- C10 witness: a failed start from a Done overlay cancels the timer
yet leaves the Done phase showing. -/
theorem C10_failed_start_leaves_overlay_witness :
    envMicFail.captureResult = .error "device busy"
    ∧ doneOverlayState.status = .Idle
    ∧ (handle_backend_event envMicFail doneOverlayState
        .HotkeyTriggered).1.overlay_phase = some (.Done "fix the bug")
    ∧ (handle_backend_event envMicFail doneOverlayState
        .HotkeyTriggered).1.overlay_dismiss_source = false := by
  have h := C10_failed_start_leaves_overlay envMicFail doneOverlayState
    "device busy" rfl rfl
  exact ⟨rfl, rfl, by simpa [doneOverlayState] using h.2.2.2.1, h.2.2.1⟩

/-- Folding pushLevel keeps exactly the values past the point where
the total would exceed 24: the retained history after any run of
AudioLevel updates is the suffix of the full arrival sequence. -/
theorem foldl_pushLevel_eq_drop (vs : List F32) :
    ∀ l : List F32, l.length ≤ 24 →
      vs.foldl pushLevel l = (l ++ vs).drop (l.length + vs.length - 24) := by
  induction vs with
  | nil =>
      intro l hl
      have h0 : l.length + ([] : List F32).length - 24 = 0 := by
        simp only [List.length_nil]
        omega
      rw [List.foldl_nil, List.append_nil, h0, List.drop_zero]
  | cons v vs ih =>
      intro l hl
      have hstep : pushLevel l v =
          (if l.length ≥ 24 then l.drop 1 else l) ++ [v] := rfl
      by_cases h24 : l.length ≥ 24
      · have hl24 : l.length = 24 := le_antisymm hl h24
        have hlen : (pushLevel l v).length = 24 := by
          simp only [pushLevel, if_pos h24, List.length_append,
            List.length_drop, List.length_singleton]
          omega
        have := ih (pushLevel l v) (le_of_eq hlen)
        rw [List.foldl_cons, this, hlen]
        have hrw : pushLevel l v ++ vs = (l ++ v :: vs).drop 1 := by
          rw [hstep, if_pos h24,
            List.drop_append_of_le_length (by omega)]
          simp
        rw [hrw, List.drop_drop]
        congr 1
        simp only [List.length_cons, hl24]
        omega
      · have hlen : (pushLevel l v).length = l.length + 1 := by
          simp only [pushLevel, if_neg h24, List.length_append,
            List.length_singleton]
        have := ih (pushLevel l v) (by omega)
        rw [List.foldl_cons, this, hlen]
        rw [hstep, if_neg h24, List.append_assoc]
        simp only [List.singleton_append, List.length_cons]
        congr 1
        omega

/-- Handling an AudioLevel event with the overlay present only updates
the retained level history through pushLevel. -/
theorem handle_audioLevel_eq (env : Env) (s : AppState) (v : F32)
    (h : s.overlay_present = true) :
    (handle_backend_event env s (.AudioLevel v)).1 =
      { s with audio_levels := pushLevel s.audio_levels v } := by
  simp [handle_backend_event, h]

/-- Iterating the AudioLevel handler only rewrites the audio_levels
field, by the fold of pushLevel. -/
theorem foldl_handle_audioLevel (env : Env) (vs : List F32) :
    ∀ s : AppState, s.overlay_present = true →
      vs.foldl (fun st v => (handle_backend_event env st (.AudioLevel v)).1) s
        = { s with audio_levels := vs.foldl pushLevel s.audio_levels } := by
  induction vs with
  | nil => intro s _; simp
  | cons v vs ih =>
      intro s h
      rw [List.foldl_cons, handle_audioLevel_eq env s v h,
        ih _ (by simp [h]), List.foldl_cons]

/-- C9: for every sequence of AudioLevel events delivered with the
overlay present, starting from an empty history, the retained level
history is the suffix of the arrival sequence past the first
length - 24 values: it never exceeds 24 entries, holds exactly
min(N, 24) entries after N events, and for N at least 24 holds exactly
the 24 most recent values in arrival order, oldest dropped first. -/
theorem C9_level_history_bounded
    (env : Env) (s : AppState) (vs : List F32)
    (hover : s.overlay_present = true) (hinit : s.audio_levels = []) :
    (vs.foldl (fun st v => (handle_backend_event env st (.AudioLevel v)).1)
        s).audio_levels = vs.drop (vs.length - 24)
    ∧ (vs.foldl (fun st v => (handle_backend_event env st (.AudioLevel v)).1)
        s).audio_levels.length = min vs.length 24
    ∧ (vs.foldl (fun st v => (handle_backend_event env st (.AudioLevel v)).1)
        s).audio_levels.length ≤ 24 := by
  have hfold := foldl_handle_audioLevel env vs s hover
  have hpush := foldl_pushLevel_eq_drop vs ([] : List F32) (by simp)
  have hlevels :
      (vs.foldl (fun st v => (handle_backend_event env st (.AudioLevel v)).1)
        s).audio_levels = vs.drop (vs.length - 24) := by
    rw [hfold]
    show vs.foldl pushLevel s.audio_levels = _
    rw [hinit, hpush]
    simp
  refine ⟨hlevels, ?_, ?_⟩ <;> rw [hlevels, List.length_drop] <;> omega

/-- C9 witness: thirty concrete levels leave exactly the last 24. -/
theorem C9_level_history_bounded_witness :
    AppState.new.overlay_present = true
    ∧ (((List.range 30).map (fun i => (i : F32))).foldl
        (fun st v => (handle_backend_event envOk st (.AudioLevel v)).1)
        AppState.new).audio_levels
      = ((List.range 30).map (fun i => (i : F32))).drop 6 := by
  refine ⟨rfl, ?_⟩
  have h := (C9_level_history_bounded envOk AppState.new
    ((List.range 30).map (fun i => (i : F32))) rfl rfl).1
  simpa using h

/-- C1 counterexample: from status Recording with an empty audio
buffer, HotkeyTriggered does not make status Processing as the claim
states; the handler returns directly to Idle. -/
theorem C1_counterexample :
    emptyRecordingState.status = .Recording
    ∧ (handle_backend_event envOk emptyRecordingState
        .HotkeyTriggered).1.status = .Idle
    ∧ (handle_backend_event envOk emptyRecordingState
        .HotkeyTriggered).1.status ≠ .Processing := by
  refine ⟨rfl, rfl, ?_⟩
  have h2 : (handle_backend_event envOk emptyRecordingState
      .HotkeyTriggered).1.status = .Idle := rfl
  rw [h2]
  decide

/-- C1 (amended): HotkeyTriggered from Idle begins a recording, status
becoming Recording exactly when the capture device opens and staying
Idle on device failure; from Recording it ends the recording, status
becoming Processing when the snapshot is nonempty and the model is
loaded and returning directly to Idle otherwise; from Processing or
ModelDownloading the event is ignored with the whole session state and
effect list unchanged; and a step can only produce status Recording
from Idle, so at most one recording cycle is ever in flight. -/
theorem C1_hotkey_transitions (env : Env) (s : AppState) :
    (s.status = .Idle →
      (∀ rate, env.captureResult = .ok rate →
        (handle_backend_event env s .HotkeyTriggered).1.status = .Recording)
      ∧ (∀ e, env.captureResult = .error e →
        (handle_backend_event env s .HotkeyTriggered).1.status = .Idle))
    ∧ (s.status = .Recording →
      (s.audio_buffer ≠ [] → s.whisper_ctx.isSome →
        (handle_backend_event env s .HotkeyTriggered).1.status = .Processing)
      ∧ (s.audio_buffer = [] ∨ s.whisper_ctx = none →
        (handle_backend_event env s .HotkeyTriggered).1.status = .Idle))
    ∧ (s.status = .Processing →
        handle_backend_event env s .HotkeyTriggered = (s, []))
    ∧ (s.status = .ModelDownloading →
        handle_backend_event env s .HotkeyTriggered = (s, []))
    ∧ ((handle_backend_event env s .HotkeyTriggered).1.status = .Recording →
        s.status = .Idle) := by
  refine ⟨?_, ?_, ?_, ?_, ?_⟩
  · intro hst
    constructor
    · intro rate hcap
      simp [handle_backend_event, start_recording, update_status, hst, hcap]
    · intro e hcap
      simp [handle_backend_event, start_recording, update_status, hst, hcap]
  · intro hst
    constructor
    · intro hbuf hctx
      rcases Option.isSome_iff_exists.mp hctx with ⟨ctx, hctx2⟩
      simp [handle_backend_event, stop_recording, update_status,
        dispatch_transcription, hst, hbuf, hctx2]
    · intro hor
      rcases hor with hbuf | hctx
      · simp [handle_backend_event, stop_recording, update_status, hst, hbuf]
      · by_cases hbuf : s.audio_buffer = []
        · simp [handle_backend_event, stop_recording, update_status, hst, hbuf]
        · simp [handle_backend_event, stop_recording, update_status,
            dispatch_transcription, hst, hbuf, hctx]
  · intro hst
    simp [handle_backend_event, hst]
  · intro hst
    simp [handle_backend_event, hst]
  · intro hpost
    cases hst : s.status with
    | Idle => rfl
    | Recording =>
        exfalso
        by_cases hbuf : s.audio_buffer = []
        · simp [handle_backend_event, stop_recording, update_status,
            hst, hbuf] at hpost
        · cases hctx : s.whisper_ctx with
          | none =>
              simp [handle_backend_event, stop_recording, update_status,
                dispatch_transcription, hst, hbuf, hctx] at hpost
          | some ctx =>
              simp [handle_backend_event, stop_recording, update_status,
                dispatch_transcription, hst, hbuf, hctx] at hpost
    | Processing =>
        exfalso
        simp [handle_backend_event, hst] at hpost
    | ModelDownloading =>
        exfalso
        simp [handle_backend_event, hst] at hpost

/-- C1 witness: concrete instances of each row of the amended table. -/
theorem C1_hotkey_transitions_witness :
    (handle_backend_event envOk AppState.new .HotkeyTriggered).1.status
      = .Recording
    ∧ (handle_backend_event envMicFail AppState.new .HotkeyTriggered).1.status
      = .Idle
    ∧ (handle_backend_event envOk emptyRecordingState
        .HotkeyTriggered).1.status = .Idle
    ∧ handle_backend_event envOk
        { AppState.new with status := .Processing } .HotkeyTriggered
      = ({ AppState.new with status := .Processing }, [])
    ∧ handle_backend_event envOk
        { AppState.new with status := .ModelDownloading } .HotkeyTriggered
      = ({ AppState.new with status := .ModelDownloading }, []) := by
  refine ⟨?_, ?_, ?_, ?_, ?_⟩
  · exact ((C1_hotkey_transitions envOk AppState.new).1 rfl).1 16000 rfl
  · exact ((C1_hotkey_transitions envMicFail AppState.new).1 rfl).2
      "device busy" rfl
  · exact ((C1_hotkey_transitions envOk emptyRecordingState).2.1 rfl).2
      (Or.inl rfl)
  · exact (C1_hotkey_transitions envOk
      { AppState.new with status := .Processing }).2.2.1 rfl
  · exact (C1_hotkey_transitions envOk
      { AppState.new with status := .ModelDownloading }).2.2.2.1 rfl

/-- A concrete state in the middle of refinement: status Processing,
overlay phase Refining. -/
def refiningState : AppState :=
  { AppState.new with
      status := .Processing
      overlay_phase := some .Refining
      overlay_visible := true
      whisper_ctx := some () }

/-- C2 counterexample: handling RefinementComplete with a successful
clipboard copy leaves overlay_phase = Done (not None) while status is
Idle, so a non-None phase does not imply status Recording or
Processing. -/
theorem C2_counterexample :
    (handle_backend_event envOk refiningState
        (.RefinementComplete "hi")).1.overlay_phase = some (.Done "hi")
    ∧ (handle_backend_event envOk refiningState
        (.RefinementComplete "hi")).1.status = .Idle
    ∧ ¬((handle_backend_event envOk refiningState
          (.RefinementComplete "hi")).1.overlay_phase ≠ none →
        (handle_backend_event envOk refiningState
            (.RefinementComplete "hi")).1.status = .Recording
        ∨ (handle_backend_event envOk refiningState
            (.RefinementComplete "hi")).1.status = .Processing) := by
  have hphase : (handle_backend_event envOk refiningState
      (.RefinementComplete "hi")).1.overlay_phase = some (.Done "hi") := rfl
  have hstatus : (handle_backend_event envOk refiningState
      (.RefinementComplete "hi")).1.status = .Idle := rfl
  refine ⟨hphase, hstatus, ?_⟩
  intro h
  rcases h (by rw [hphase]; exact Option.some_ne_none _) with h1 | h1 <;>
    rw [hstatus] at h1 <;> exact AppStatus.noConfusion h1

/-- The half of the claimed correlation that the code does maintain:
overlay_phase Recording only together with status Recording. -/
def phaseStatusCoupled (s : AppState) : Prop :=
  s.overlay_phase = some .Recording → s.status = .Recording

/-- C2 (amended): the claimed correlation fails at the Done phase,
which lawfully coexists with status Idle during the auto-dismiss
window; its final clause holds: every event handler step from a
coupled state yields a coupled state — never overlay_phase = Recording
with status other than Recording — under the sole proviso that a
ModelDownloadComplete is not delivered while status = Recording; the
loaded-context delivery step likewise preserves the coupling whenever
it is not performed while status = Recording. -/
theorem C2_phase_status_coupling (env : Env) (s : AppState)
    (e : BackendEvent) (ctx : WhisperContext)
    (hK : phaseStatusCoupled s)
    (hmdc : e = .ModelDownloadComplete → s.status ≠ .Recording) :
    phaseStatusCoupled (handle_backend_event env s e).1
    ∧ (s.status ≠ .Recording →
        phaseStatusCoupled (on_whisper_ctx_received s ctx)) := by
  constructor
  · cases e with
    | HotkeyTriggered =>
        cases hst : s.status with
        | Idle =>
            cases hcap : env.captureResult with
            | ok rate =>
                intro _
                simp [handle_backend_event, start_recording, update_status,
                  hst, hcap]
            | error err =>
                intro hp
                exfalso
                have : s.overlay_phase = some .Recording := by
                  simpa [handle_backend_event, start_recording,
                    update_status, hst, hcap] using hp
                rw [hK this] at hst
                exact AppStatus.noConfusion hst
        | Recording =>
            intro hp
            exfalso
            by_cases hbuf : s.audio_buffer = []
            · simp [handle_backend_event, stop_recording, update_status,
                hst, hbuf] at hp
            · cases hwc : s.whisper_ctx with
              | none =>
                  simp [handle_backend_event, stop_recording, update_status,
                    dispatch_transcription, hst, hbuf, hwc] at hp
              | some c =>
                  simp [handle_backend_event, stop_recording, update_status,
                    dispatch_transcription, hst, hbuf, hwc] at hp
        | Processing =>
            intro hp
            exfalso
            have h1 : s.overlay_phase = some .Recording := by
              simpa [handle_backend_event, hst] using hp
            have h2 := hK h1
            rw [hst] at h2
            exact AppStatus.noConfusion h2
        | ModelDownloading =>
            intro hp
            exfalso
            have h1 : s.overlay_phase = some .Recording := by
              simpa [handle_backend_event, hst] using hp
            have h2 := hK h1
            rw [hst] at h2
            exact AppStatus.noConfusion h2
    | TranscriptionComplete t =>
        intro hp
        exfalso
        simp [handle_backend_event, update_status, dispatch_refinement] at hp
    | RefinementComplete t =>
        cases hcopy : env.copyResult t with
        | ok u =>
            intro hp
            exfalso
            simp [handle_backend_event, on_prompt_ready, update_status,
              hcopy] at hp
        | error err =>
            intro hp
            exfalso
            simp [handle_backend_event, on_prompt_ready, dismiss_overlay,
              update_status, hcopy] at hp
    | ProcessingError m =>
        intro hp
        exfalso
        simp [handle_backend_event, dismiss_overlay, update_status] at hp
    | ModelDownloadProgress d tot =>
        intro hp
        cases hdash : s.dashboard_present <;>
          · have h1 : s.overlay_phase = some .Recording := by
              simpa [handle_backend_event, hdash] using hp
            simpa [handle_backend_event, hdash] using hK h1
    | ModelDownloadComplete =>
        intro hp
        exfalso
        have hne := hmdc rfl
        have : s.overlay_phase = some .Recording := by
          cases hdash : s.dashboard_present <;>
            simpa [handle_backend_event, load_whisper_model,
              update_status, hdash] using hp
        exact hne (hK this)
    | TimerTick =>
        intro hp
        have : s.overlay_phase = some .Recording := by
          simpa [handle_backend_event] using hp
        exact hK this
    | AudioLevel v =>
        intro hp
        cases hover : s.overlay_present <;>
          · have h1 : s.overlay_phase = some .Recording := by
              simpa [handle_backend_event, hover] using hp
            simpa [handle_backend_event, hover] using hK h1
    | OverlayClicked =>
        intro hp
        exfalso
        cases hph : s.overlay_phase with
        | none =>
            simp [handle_backend_event, dismiss_overlay, hph] at hp
        | some ph =>
            cases ph <;>
              simp [handle_backend_event, dismiss_overlay, hph] at hp
  · intro hst hp
    exfalso
    have h1 : s.overlay_phase = some .Recording := by
      simpa [on_whisper_ctx_received] using hp
    exact hst (hK h1)

/-- A concrete state in the middle of a live recording: status
Recording with the Recording overlay phase showing. -/
def liveRecordingState : AppState :=
  { AppState.new with
      status := .Recording
      overlay_phase := some .Recording
      overlay_visible := true
      cpal_stream := true
      timer_source := true }

/-- C2 witness: from a concrete live-recording state — coupled
non-vacuously, with overlay_phase = Recording — an AudioLevel step
keeps the phase at Recording and the status at Recording, and the
coupling is preserved; the loaded-context delivery from a concrete
non-Recording state is also coupled. -/
theorem C2_phase_status_coupling_witness :
    liveRecordingState.overlay_phase = some .Recording
    ∧ liveRecordingState.status = .Recording
    ∧ (handle_backend_event envOk liveRecordingState
        (.AudioLevel 1)).1.overlay_phase = some .Recording
    ∧ (handle_backend_event envOk liveRecordingState
        (.AudioLevel 1)).1.status = .Recording
    ∧ phaseStatusCoupled (handle_backend_event envOk liveRecordingState
        (.AudioLevel 1)).1
    ∧ phaseStatusCoupled (on_whisper_ctx_received refiningState ()) := by
  have hKlive : phaseStatusCoupled liveRecordingState := fun _ => rfl
  have hlive := C2_phase_status_coupling envOk liveRecordingState
    (.AudioLevel 1) () hKlive
    (fun hcontra => BackendEvent.noConfusion hcontra)
  have hKref : phaseStatusCoupled refiningState := by
    intro hp
    exact absurd hp (by decide)
  have href := C2_phase_status_coupling envOk refiningState
    .TimerTick () hKref
    (fun hcontra => BackendEvent.noConfusion hcontra)
  exact ⟨rfl, rfl, rfl, rfl, hlive.1, href.2 (by decide)⟩

/-- A concrete state in the middle of the model download. -/
def downloadingState : AppState :=
  { AppState.new with status := .ModelDownloading }

/-- C3 counterexample: handling ModelDownloadComplete does not leave
status unchanged; load_whisper_model immediately sets it to
Processing. -/
theorem C3_counterexample :
    downloadingState.status = .ModelDownloading
    ∧ (handle_backend_event envOk downloadingState
        .ModelDownloadComplete).1.status = .Processing
    ∧ (handle_backend_event envOk downloadingState
        .ModelDownloadComplete).1.status ≠ downloadingState.status := by
  refine ⟨rfl, rfl, ?_⟩
  have h : (handle_backend_event envOk downloadingState
      .ModelDownloadComplete).1.status = .Processing := rfl
  rw [h]
  decide

/-- C3 (amended): handling ModelDownloadComplete hides the download
progress indicator and begins the model load, setting status to
Processing (not leaving it unchanged); the load task delivers the
loaded context on success and the receiving step stores it and flips
status to Idle, while a load failure or an abnormal termination of the
load task emits ProcessingError. -/
theorem C3_model_download_complete (env : Env) (s : AppState) :
    (s.dashboard_present = true →
      Effect.hideProgress ∈ (handle_backend_event env s .ModelDownloadComplete).2)
    ∧ Effect.spawnModelLoad ∈ (handle_backend_event env s .ModelDownloadComplete).2
    ∧ (handle_backend_event env s .ModelDownloadComplete).1.status = .Processing
    ∧ (∀ ctx, modelLoadTaskResult (.ok ctx) = (some ctx, []))
    ∧ (∀ ctx s2, (on_whisper_ctx_received s2 ctx).status = .Idle
        ∧ (on_whisper_ctx_received s2 ctx).whisper_ctx = some ctx)
    ∧ (∀ e, modelLoadTaskResult (.err e)
        = (none, [.ProcessingError ("Failed to load model: " ++ e)]))
    ∧ (∀ e, modelLoadTaskResult (.panicked e)
        = (none, [.ProcessingError ("Model load panicked: " ++ e)])) := by
  refine ⟨?_, ?_, ?_, fun ctx => rfl, fun ctx s2 => ⟨rfl, rfl⟩,
    fun e => rfl, fun e => rfl⟩
  · intro hdash
    simp [handle_backend_event, load_whisper_model, update_status, hdash]
  · cases hdash : s.dashboard_present <;>
      simp [handle_backend_event, load_whisper_model, update_status, hdash]
  · cases hdash : s.dashboard_present <;>
      simp [handle_backend_event, load_whisper_model, update_status, hdash]

/-- C3 witness: the concrete downloading state spawns the load with
the progress bar hidden. -/
theorem C3_model_download_complete_witness :
    downloadingState.dashboard_present = true
    ∧ Effect.hideProgress ∈ (handle_backend_event envOk downloadingState
        .ModelDownloadComplete).2
    ∧ (on_whisper_ctx_received downloadingState ()).status = .Idle := by
  have h := C3_model_download_complete envOk downloadingState
  exact ⟨rfl, h.1 rfl, (h.2.2.2.2.1 () downloadingState).1⟩

/-- The default hotkey combination (Ctrl modifier, Space trigger). -/
def ctrlSpace : HotkeyConfig :=
  { modifiers := [29], trigger := 57, display_name := "Ctrl+Space" }

/-- C6 counterexample: two matching key states separated by exactly
500 ms produce one trigger signal, not two; the debounce comparison in
listener_loop is strict. -/
theorem C6_counterexample :
    ((500 : ℤ) - 0 ≥ 500)
    ∧ hotkeyMatches ctrlSpace {29, 57} = true
    ∧ countTriggers ctrlSpace [({29, 57}, 0), ({29, 57}, 500)] (-10000) = 1 := by
  refine ⟨by decide, by decide, ?_⟩
  decide

/-- C6 (amended): a key-combination match fires a trigger only when
strictly more than 500 ms have elapsed since the last successful
trigger: two matching key states separated by at most 500 ms produce
exactly one trigger signal, and two separated by more than 500 ms
produce two. -/
theorem C6_debounce (cfg : HotkeyConfig) (h1 h2 : Finset ℕ)
    (t1 t2 last : ℤ)
    (hm1 : hotkeyMatches cfg h1 = true)
    (hm2 : hotkeyMatches cfg h2 = true)
    (hfirst : t1 - last > 500) :
    (t2 - t1 ≤ 500 → countTriggers cfg [(h1, t1), (h2, t2)] last = 1)
    ∧ (t2 - t1 > 500 → countTriggers cfg [(h1, t1), (h2, t2)] last = 2) := by
  constructor
  · intro hsep
    have hsep2 : ¬(t2 - t1 > 500) := by omega
    simp [countTriggers, checkTrigger, hm1, hm2, hfirst, hsep2]
  · intro hsep
    simp [countTriggers, checkTrigger, hm1, hm2, hfirst, hsep]

/-- C6 witness: concrete pairs of checks at 499 ms and 501 ms apart. -/
theorem C6_debounce_witness :
    countTriggers ctrlSpace [({29, 57}, 0), ({29, 57}, 499)] (-10000) = 1
    ∧ countTriggers ctrlSpace [({29, 57}, 0), ({29, 57}, 501)] (-10000) = 2 := by
  constructor
  · exact (C6_debounce ctrlSpace {29, 57} {29, 57} 0 499 (-10000)
      (by decide) (by decide) (by decide)).1 (by decide)
  · exact (C6_debounce ctrlSpace {29, 57} {29, 57} 0 501 (-10000)
      (by decide) (by decide) (by decide)).2 (by decide)

end VoicePrompt
